import Mathlib

/-!
Shallow embedding of the reservoir DSS core (`src/app.py`): the scenario
generator `make_timeseries`/`generate_inputs`, the allocation engine
`pseudo_black_box_schedule`, and the KPI computation `kpis`.
Numbers are modelled as exact rationals; the float literal `1e-6` becomes
`1 / 1000000` and `0.55` / `0.45` become `55 / 100` / `45 / 100`.
Division is total (`x / 0 = 0`) in the main embedding; a parallel
`Option`-valued "checked" embedding returns `none` exactly where Python
float division would raise `ZeroDivisionError`.
-/

namespace ReservoirDSS

/-- One hour of the input time series (columns of the `generate_inputs`
DataFrame, `src/app.py` lines 31-40). -/
structure TimeSeriesRow where
  river_inflow_S1 : ℚ
  upstream_release_R1 : ℚ
  upstream_release_R2 : ℚ
  demand_D1 : ℚ
  demand_D2 : ℚ
  commitment_S4_min : ℚ
  commitment_S5_min : ℚ
deriving Repr, DecidableEq

/-- The four scenario multipliers (`scenario_multipliers` dict). -/
structure ScenarioMultipliers where
  river : ℚ
  upstream : ℚ
  demand : ℚ
  commitments : ℚ
deriving Repr, DecidableEq

/-- One row of the schedule produced by the engine
(`src/app.py` lines 133-144). -/
structure ScheduleRow where
  inflow_total : ℚ
  release_D1 : ℚ
  release_D2 : ℚ
  release_S4_river : ℚ
  release_S5_downstream : ℚ
  release_total : ℚ
  storage_end : ℚ
  spillage : ℚ
  violation_storage_min : Bool
deriving Repr, DecidableEq

/-- The epsilon guard `1e-6` used throughout `src/app.py`. -/
def eps : ℚ := 1 / 1000000

/-- The multiplier pre-step of `pseudo_black_box_schedule`
(`src/app.py` lines 57-63), applied to one row. -/
def applyMultipliers (m : ScenarioMultipliers) (r : TimeSeriesRow) : TimeSeriesRow :=
  { river_inflow_S1 := r.river_inflow_S1 * m.river
    upstream_release_R1 := r.upstream_release_R1 * m.upstream
    upstream_release_R2 := r.upstream_release_R2 * m.upstream
    demand_D1 := r.demand_D1 * m.demand
    demand_D2 := r.demand_D2 * m.demand
    commitment_S4_min := r.commitment_S4_min * m.commitments
    commitment_S5_min := r.commitment_S5_min * m.commitments }

/-- The four per-branch release outputs of one hour, before the cap step
(the variables `s4_out, s5_out, d1_out, d2_out`). -/
structure Alloc where
  s4_out : ℚ
  s5_out : ℚ
  d1_out : ℚ
  d2_out : ℚ
deriving Repr, DecidableEq

/-- `total_release = s4_out + s5_out + d1_out + d2_out`
(`src/app.py` line 110). -/
def Alloc.total (a : Alloc) : ℚ := a.s4_out + a.s5_out + a.d1_out + a.d2_out

/-- The allocation branch of the per-hour loop
(`src/app.py` lines 89-108). -/
def allocateReleases (available s4 s5 d1 d2 : ℚ) : Alloc :=
  if available < s4 + s5 then
    let scale := available / (s4 + s5 + eps)
    ⟨s4 * scale, s5 * scale, 0, 0⟩
  else
    let remaining := available - (s4 + s5)
    let demand_sum := d1 + d2
    if remaining ≥ demand_sum then ⟨s4, s5, d1, d2⟩
    else if demand_sum < eps then ⟨s4, s5, 0, 0⟩
    else ⟨s4, s5, remaining * (d1 / demand_sum), remaining * (d2 / demand_sum)⟩

/-- The per-hour release-cap step (`src/app.py` lines 113-119): returns the
(possibly rescaled) outputs together with the final `total_release`. -/
def applyCap (cap : ℚ) (a : Alloc) : Alloc × ℚ :=
  if a.total > cap then
    let scale := cap / a.total
    (⟨a.s4_out * scale, a.s5_out * scale, a.d1_out * scale, a.d2_out * scale⟩, cap)
  else (a, a.total)

/-- `inflow = river_inflow_S1 + upstream_release_R1 + upstream_release_R2`
(`src/app.py` line 69). -/
def inflowOf (r : TimeSeriesRow) : ℚ :=
  r.river_inflow_S1 + r.upstream_release_R1 + r.upstream_release_R2

/-- `usable_storage = max(0, storage - storage_min)` (`src/app.py` line 72). -/
def usableStorage (storage_min storage : ℚ) : ℚ := max 0 (storage - storage_min)

/-- `available = inflow + usable_storage` (`src/app.py` line 73). -/
def availableOf (storage_min storage : ℚ) (r : TimeSeriesRow) : ℚ :=
  inflowOf r + usableStorage storage_min storage

/-- One iteration of the per-hour loop of `pseudo_black_box_schedule`
(`src/app.py` lines 68-146), on an already multiplier-adjusted row:
returns the emitted `ScheduleRow` and the storage carried to the next hour. -/
def stepHour (storage_min storage_max cap storage : ℚ) (r : TimeSeriesRow) :
    ScheduleRow × ℚ :=
  let inflow := inflowOf r
  let available := availableOf storage_min storage r
  let a := allocateReleases available r.commitment_S4_min r.commitment_S5_min
    r.demand_D1 r.demand_D2
  let bt := applyCap cap a
  let b := bt.1
  let total_release := bt.2
  let storage_next0 := storage + inflow - total_release
  let spillage := if storage_next0 > storage_max then storage_next0 - storage_max else 0
  let storage_next1 := if storage_next0 > storage_max then storage_max else storage_next0
  let violated := storage_next1 < storage_min
  let storage_end := if storage_next1 < storage_min then storage_min else storage_next1
  ({ inflow_total := inflow
     release_D1 := b.d1_out
     release_D2 := b.d2_out
     release_S4_river := b.s4_out
     release_S5_downstream := b.s5_out
     release_total := total_release
     storage_end := storage_end
     spillage := spillage
     violation_storage_min := decide violated }, storage_end)

/-- The per-hour loop as a fold over the (already adjusted) rows, threading
the storage state. -/
def scheduleAux (storage_min storage_max cap : ℚ) :
    ℚ → List TimeSeriesRow → List ScheduleRow
  | _, [] => []
  | storage, r :: rs =>
    (stepHour storage_min storage_max cap storage r).1 ::
      scheduleAux storage_min storage_max cap
        (stepHour storage_min storage_max cap storage r).2 rs

/-- `pseudo_black_box_schedule` (`src/app.py` lines 44-149): applies the
scenario multipliers to every row, then runs the per-hour loop starting
from `storage_start`. -/
def pseudo_black_box_schedule (inputs : List TimeSeriesRow)
    (storage_start storage_min storage_max max_release_per_hour : ℚ)
    (m : ScenarioMultipliers) : List ScheduleRow :=
  scheduleAux storage_min storage_max max_release_per_hour storage_start
    (inputs.map (applyMultipliers m))

/-- The storage at the start of hour `i` of the loop (the value of the
`storage` variable when hour `i` is processed). -/
def startStorage (storage_min storage_max cap : ℚ) :
    ℚ → List TimeSeriesRow → ℕ → ℚ
  | s, _, 0 => s
  | s, [], _ + 1 => s
  | s, r :: rs, i + 1 =>
    startStorage storage_min storage_max cap
      (stepHour storage_min storage_max cap s r).2 rs i

/-- The KPI dictionary returned by `kpis` (`src/app.py` lines 165-170). -/
structure KPISummary where
  demand_met_pct : ℚ
  commitments_met_pct : ℚ
  total_spillage : ℚ
  storage_min_violations : ℤ
deriving Repr, DecidableEq

/-- `kpis` (`src/app.py` lines 151-170): aggregate metrics over the raw
inputs and the schedule.  The Python `int(... .sum())` over the boolean
violation column is the sum of 0/1 indicators. -/
def kpis (inputs : List TimeSeriesRow) (schedule : List ScheduleRow) : KPISummary :=
  let d1 := (inputs.map TimeSeriesRow.demand_D1).sum
  let d2 := (inputs.map TimeSeriesRow.demand_D2).sum
  let dem := d1 + d2
  let dem_met := (schedule.map ScheduleRow.release_D1).sum +
    (schedule.map ScheduleRow.release_D2).sum
  let dem_pct := 100 * dem_met / (dem + eps)
  let com := (inputs.map TimeSeriesRow.commitment_S4_min).sum +
    (inputs.map TimeSeriesRow.commitment_S5_min).sum
  let com_met := (schedule.map ScheduleRow.release_S4_river).sum +
    (schedule.map ScheduleRow.release_S5_downstream).sum
  let com_pct := 100 * com_met / (com + eps)
  let spill := (schedule.map ScheduleRow.spillage).sum
  let violations :=
    (schedule.map (fun r => if r.violation_storage_min then (1 : ℤ) else 0)).sum
  { demand_met_pct := dem_pct
    commitments_met_pct := com_pct
    total_spillage := spill
    storage_min_violations := violations }

/-- `make_timeseries` (`src/app.py` lines 11-17), pointwise.  The float
signal `base + noise` (a sine sweep plus seeded Gaussian noise, both
unembeddable floating-point computations) is abstracted as an arbitrary
rational stream `raw`; `np.clip(x, 0, None)` is `max x 0`. -/
def make_timeseries_at (raw : ℕ → ℚ) (i : ℕ) : ℚ := max (raw i) 0

/-- `make_timeseries` as a list over `hours` points. -/
def make_timeseries (hours : ℕ) (raw : ℕ → ℚ) : List ℚ :=
  (List.range hours).map (make_timeseries_at raw)

/-- `generate_inputs` (`src/app.py` lines 19-42): five independently seeded
signals (abstracted as the raw streams `s1 r1 r2 d1 d2`, one per derived
seed), demand columns scaled by the 55%/45% split, commitment columns the
constants 40 and 35. -/
def generate_inputs (horizon_hours : ℕ) (s1 r1 r2 d1 d2 : ℕ → ℚ) :
    List TimeSeriesRow :=
  (List.range horizon_hours).map (fun i =>
    { river_inflow_S1 := make_timeseries_at s1 i
      upstream_release_R1 := make_timeseries_at r1 i
      upstream_release_R2 := make_timeseries_at r2 i
      demand_D1 := make_timeseries_at d1 i * (55 / 100)
      demand_D2 := make_timeseries_at d2 i * (45 / 100)
      commitment_S4_min := 40
      commitment_S5_min := 35 })

/-- Python float division: raises `ZeroDivisionError` on a zero
denominator, otherwise exact quotient. -/
def qdiv (a b : ℚ) : Option ℚ := if b = 0 then none else some (a / b)

/-- `allocateReleases` with every division checked as in Python. -/
def allocateReleasesChecked (available s4 s5 d1 d2 : ℚ) : Option Alloc :=
  if available < s4 + s5 then
    (qdiv available (s4 + s5 + eps)).map (fun scale => ⟨s4 * scale, s5 * scale, 0, 0⟩)
  else
    let remaining := available - (s4 + s5)
    let demand_sum := d1 + d2
    if remaining ≥ demand_sum then some ⟨s4, s5, d1, d2⟩
    else if demand_sum < eps then some ⟨s4, s5, 0, 0⟩
    else
      (qdiv d1 demand_sum).bind (fun q1 =>
        (qdiv d2 demand_sum).map (fun q2 =>
          ⟨s4, s5, remaining * q1, remaining * q2⟩))

/-- `applyCap` with the division checked as in Python. -/
def applyCapChecked (cap : ℚ) (a : Alloc) : Option (Alloc × ℚ) :=
  if a.total > cap then
    (qdiv cap a.total).map (fun scale =>
      (⟨a.s4_out * scale, a.s5_out * scale, a.d1_out * scale, a.d2_out * scale⟩, cap))
  else some (a, a.total)

/-- One loop iteration with checked divisions: `none` exactly when the
Python code would raise `ZeroDivisionError` in this hour. -/
def stepHourChecked (storage_min storage_max cap storage : ℚ) (r : TimeSeriesRow) :
    Option (ScheduleRow × ℚ) :=
  (allocateReleasesChecked (availableOf storage_min storage r)
      r.commitment_S4_min r.commitment_S5_min r.demand_D1 r.demand_D2).bind
    (fun a => (applyCapChecked cap a).map (fun bt =>
      let inflow := inflowOf r
      let total_release := bt.2
      let storage_next0 := storage + inflow - total_release
      let spillage := if storage_next0 > storage_max then storage_next0 - storage_max else 0
      let storage_next1 := if storage_next0 > storage_max then storage_max else storage_next0
      let storage_end := if storage_next1 < storage_min then storage_min else storage_next1
      ({ inflow_total := inflow
         release_D1 := bt.1.d1_out
         release_D2 := bt.1.d2_out
         release_S4_river := bt.1.s4_out
         release_S5_downstream := bt.1.s5_out
         release_total := total_release
         storage_end := storage_end
         spillage := spillage
         violation_storage_min := decide (storage_next1 < storage_min) }, storage_end)))

/-- The checked per-hour loop: `none` if any hour raises. -/
def scheduleAuxChecked (storage_min storage_max cap : ℚ) :
    ℚ → List TimeSeriesRow → Option (List ScheduleRow)
  | _, [] => some []
  | storage, r :: rs =>
    (stepHourChecked storage_min storage_max cap storage r).bind (fun p =>
      (scheduleAuxChecked storage_min storage_max cap p.2 rs).map (fun rest =>
        p.1 :: rest))

/-- `pseudo_black_box_schedule` with Python division semantics: `none`
exactly when the original code raises `ZeroDivisionError`. -/
def pseudo_black_box_schedule_checked (inputs : List TimeSeriesRow)
    (storage_start storage_min storage_max max_release_per_hour : ℚ)
    (m : ScenarioMultipliers) : Option (List ScheduleRow) :=
  scheduleAuxChecked storage_min storage_max max_release_per_hour storage_start
    (inputs.map (applyMultipliers m))

/-- All seven columns of a time-series row are non-negative. -/
def TimeSeriesRow.Nonneg (r : TimeSeriesRow) : Prop :=
  0 ≤ r.river_inflow_S1 ∧ 0 ≤ r.upstream_release_R1 ∧ 0 ≤ r.upstream_release_R2 ∧
  0 ≤ r.demand_D1 ∧ 0 ≤ r.demand_D2 ∧
  0 ≤ r.commitment_S4_min ∧ 0 ≤ r.commitment_S5_min

instance (r : TimeSeriesRow) : Decidable r.Nonneg := by
  unfold TimeSeriesRow.Nonneg; infer_instance

/-- The pre-cap allocation computed by one loop iteration for row `r` with
start-of-hour storage `s`. -/
def allocStep (storage_min s : ℚ) (r : TimeSeriesRow) : Alloc :=
  allocateReleases (availableOf storage_min s r) r.commitment_S4_min
    r.commitment_S5_min r.demand_D1 r.demand_D2

/-- The post-cap allocation and final `total_release` of one loop iteration. -/
def capStep (storage_min cap s : ℚ) (r : TimeSeriesRow) : Alloc × ℚ :=
  applyCap cap (allocStep storage_min s r)

/-! ### Helper lemmas about the loop structure -/

theorem stepHour_inflow (smin smax cap s : ℚ) (r : TimeSeriesRow) :
    (stepHour smin smax cap s r).1.inflow_total = inflowOf r := rfl

theorem stepHour_release_D1 (smin smax cap s : ℚ) (r : TimeSeriesRow) :
    (stepHour smin smax cap s r).1.release_D1 = (capStep smin cap s r).1.d1_out := rfl

theorem stepHour_release_D2 (smin smax cap s : ℚ) (r : TimeSeriesRow) :
    (stepHour smin smax cap s r).1.release_D2 = (capStep smin cap s r).1.d2_out := rfl

theorem stepHour_release_S4 (smin smax cap s : ℚ) (r : TimeSeriesRow) :
    (stepHour smin smax cap s r).1.release_S4_river = (capStep smin cap s r).1.s4_out := rfl

theorem stepHour_release_S5 (smin smax cap s : ℚ) (r : TimeSeriesRow) :
    (stepHour smin smax cap s r).1.release_S5_downstream =
      (capStep smin cap s r).1.s5_out := rfl

theorem stepHour_release_total (smin smax cap s : ℚ) (r : TimeSeriesRow) :
    (stepHour smin smax cap s r).1.release_total = (capStep smin cap s r).2 := rfl

theorem stepHour_snd_eq (smin smax cap s : ℚ) (r : TimeSeriesRow) :
    (stepHour smin smax cap s r).2 = (stepHour smin smax cap s r).1.storage_end := rfl

theorem scheduleAux_length (smin smax cap s : ℚ) (rows : List TimeSeriesRow) :
    (scheduleAux smin smax cap s rows).length = rows.length := by
  induction rows generalizing s with
  | nil => rfl
  | cons r rs ih => simp [scheduleAux, ih]

theorem scheduleAux_get (smin smax cap s : ℚ) (rows : List TimeSeriesRow)
    (i : ℕ) (hi : i < rows.length) :
    (scheduleAux smin smax cap s rows).get
        ⟨i, by rw [scheduleAux_length]; exact hi⟩ =
      (stepHour smin smax cap (startStorage smin smax cap s rows i)
        (rows.get ⟨i, hi⟩)).1 := by
  induction rows generalizing s i with
  | nil => exact absurd hi (Nat.not_lt_zero i)
  | cons r rs ih =>
    cases i with
    | zero => rfl
    | succ j => exact ih _ j (Nat.lt_of_succ_lt_succ hi)

theorem startStorage_zero (smin smax cap s : ℚ) (rows : List TimeSeriesRow) :
    startStorage smin smax cap s rows 0 = s := by
  cases rows <;> rfl

theorem startStorage_succ (smin smax cap s : ℚ) (rows : List TimeSeriesRow)
    (i : ℕ) (hi : i < rows.length) :
    startStorage smin smax cap s rows (i + 1) =
      ((scheduleAux smin smax cap s rows).get
        ⟨i, by rw [scheduleAux_length]; exact hi⟩).storage_end := by
  induction rows generalizing s i with
  | nil => exact absurd hi (Nat.not_lt_zero i)
  | cons r rs ih =>
    cases i with
    | zero => simp [startStorage, scheduleAux, stepHour_snd_eq]
    | succ j => exact ih _ j (Nat.lt_of_succ_lt_succ hi)

/-! ### Helper lemmas about the allocation and cap steps -/

theorem eps_pos : (0 : ℚ) < eps := by norm_num [eps]

theorem applyCap_snd_le_cap (cap : ℚ) (a : Alloc) : (applyCap cap a).2 ≤ cap := by
  unfold applyCap
  split_ifs with h
  · exact le_rfl
  · exact le_of_not_lt h

theorem applyCap_snd_le_total (cap : ℚ) (a : Alloc) : (applyCap cap a).2 ≤ a.total := by
  unfold applyCap
  split_ifs with h
  · exact le_of_lt h
  · exact le_rfl

theorem applyCap_of_le (cap : ℚ) (a : Alloc) (h : a.total ≤ cap) :
    applyCap cap a = (a, a.total) := by
  unfold applyCap
  rw [if_neg (not_lt_of_le h)]

theorem applyCap_of_gt (cap : ℚ) (a : Alloc) (h : a.total > cap) :
    applyCap cap a =
      (⟨a.s4_out * (cap / a.total), a.s5_out * (cap / a.total),
        a.d1_out * (cap / a.total), a.d2_out * (cap / a.total)⟩, cap) := by
  unfold applyCap
  rw [if_pos h]

theorem allocateReleases_of_not_short (available s4 s5 d1 d2 : ℚ)
    (h : ¬ available < s4 + s5) :
    (allocateReleases available s4 s5 d1 d2).s4_out = s4 ∧
    (allocateReleases available s4 s5 d1 d2).s5_out = s5 := by
  unfold allocateReleases
  rw [if_neg h]
  dsimp only
  split_ifs <;> exact ⟨rfl, rfl⟩

theorem allocateReleases_of_short (available s4 s5 d1 d2 : ℚ)
    (h : available < s4 + s5) :
    allocateReleases available s4 s5 d1 d2 =
      ⟨s4 * (available / (s4 + s5 + eps)), s5 * (available / (s4 + s5 + eps)), 0, 0⟩ := by
  unfold allocateReleases
  rw [if_pos h]

theorem allocateReleases_total_le (available s4 s5 d1 d2 : ℚ)
    (ha : 0 ≤ available) :
    (allocateReleases available s4 s5 d1 d2).total ≤ available := by
  unfold allocateReleases Alloc.total
  dsimp only
  split_ifs with h1 h2 h3
  · have hD : (0 : ℚ) < s4 + s5 + eps := by linarith [eps_pos]
    have he : s4 * (available / (s4 + s5 + eps)) + s5 * (available / (s4 + s5 + eps))
        + 0 + 0 = (s4 + s5) * available / (s4 + s5 + eps) := by ring
    rw [he, div_le_iff₀ hD]
    nlinarith [mul_nonneg ha (le_of_lt eps_pos)]
  · have := le_of_not_lt h1
    linarith [h2]
  · show s4 + s5 + 0 + 0 ≤ available
    linarith [le_of_not_lt h1]
  · have hds : (0 : ℚ) < d1 + d2 := lt_of_lt_of_le eps_pos (le_of_not_lt h3)
    have he : s4 + s5 + (available - (s4 + s5)) * (d1 / (d1 + d2))
        + (available - (s4 + s5)) * (d2 / (d1 + d2))
        = s4 + s5 + (available - (s4 + s5)) * ((d1 + d2) / (d1 + d2)) := by ring
    rw [he, div_self (ne_of_gt hds), mul_one]
    linarith

theorem post_conservation (smin smax s I T : ℚ) :
    (decide ((if s + I - T > smax then smax else s + I - T) < smin) = false →
      (if (if s + I - T > smax then smax else s + I - T) < smin then smin
       else if s + I - T > smax then smax else s + I - T) =
        s + I - T - (if s + I - T > smax then s + I - T - smax else 0)) ∧
    (decide ((if s + I - T > smax then smax else s + I - T) < smin) = true →
      (if (if s + I - T > smax then smax else s + I - T) < smin then smin
       else if s + I - T > smax then smax else s + I - T) = smin ∧
      s + I - T - (if s + I - T > smax then s + I - T - smax else 0) < smin) := by
  simp only [decide_eq_false_iff_not, decide_eq_true_eq]
  split_ifs with hA hB hB
  · exact ⟨fun h => absurd hB h, fun _ => ⟨rfl, by linarith⟩⟩
  · exact ⟨fun _ => by ring, fun h => absurd h hB⟩
  · exact ⟨fun h => absurd hB h, fun _ => ⟨rfl, by linarith⟩⟩
  · exact ⟨fun _ => by ring, fun h => absurd h hB⟩

theorem stepHour_conservation (smin smax cap s : ℚ) (r : TimeSeriesRow) :
    ((stepHour smin smax cap s r).1.violation_storage_min = false →
      (stepHour smin smax cap s r).1.storage_end =
        s + (stepHour smin smax cap s r).1.inflow_total
          - (stepHour smin smax cap s r).1.release_total
          - (stepHour smin smax cap s r).1.spillage) ∧
    ((stepHour smin smax cap s r).1.violation_storage_min = true →
      (stepHour smin smax cap s r).1.storage_end = smin ∧
      s + (stepHour smin smax cap s r).1.inflow_total
        - (stepHour smin smax cap s r).1.release_total
        - (stepHour smin smax cap s r).1.spillage < smin) :=
  post_conservation smin smax s (inflowOf r) (capStep smin cap s r).2

theorem pseudo_length (inputs : List TimeSeriesRow)
    (sstart smin smax cap : ℚ) (m : ScenarioMultipliers) :
    (pseudo_black_box_schedule inputs sstart smin smax cap m).length =
      inputs.length := by
  simp [pseudo_black_box_schedule, scheduleAux_length]

theorem stepHour_bounds (smin smax cap s : ℚ) (r : TimeSeriesRow) (h : smin ≤ smax) :
    smin ≤ (stepHour smin smax cap s r).1.storage_end ∧
    (stepHour smin smax cap s r).1.storage_end ≤ smax := by
  have he : (stepHour smin smax cap s r).1.storage_end =
      (if (if s + inflowOf r - (capStep smin cap s r).2 > smax then smax
           else s + inflowOf r - (capStep smin cap s r).2) < smin then smin
       else if s + inflowOf r - (capStep smin cap s r).2 > smax then smax
       else s + inflowOf r - (capStep smin cap s r).2) := rfl
  rw [he]
  split_ifs <;> constructor <;> linarith

theorem scheduleAux_bounds (smin smax cap : ℚ) (h : smin ≤ smax) :
    ∀ (rows : List TimeSeriesRow) (s : ℚ),
      ∀ row ∈ scheduleAux smin smax cap s rows,
        smin ≤ row.storage_end ∧ row.storage_end ≤ smax := by
  intro rows
  induction rows with
  | nil =>
    intro s row hrow
    simp [scheduleAux] at hrow
  | cons r rs ih =>
    intro s row hrow
    rcases List.mem_cons.mp hrow with h1 | h2
    · rw [h1]
      exact stepHour_bounds smin smax cap s r h
    · exact ih _ row h2

theorem post_min_safe (smin smax s I T : ℚ)
    (hmm : smin ≤ smax) (hT : T ≤ I + (s - smin)) :
    smin ≤ (if (if s + I - T > smax then smax else s + I - T) < smin then smin
            else if s + I - T > smax then smax else s + I - T) ∧
    decide ((if s + I - T > smax then smax else s + I - T) < smin) = false := by
  have h1 : smin ≤ (if s + I - T > smax then smax else s + I - T) := by
    split_ifs <;> linarith
  refine ⟨?_, decide_eq_false (not_lt_of_le h1)⟩
  rw [if_neg (not_lt_of_le h1)]
  exact h1

theorem stepHour_min_safe (smin smax cap s : ℚ) (r : TimeSeriesRow)
    (hs : smin ≤ s) (hmm : smin ≤ smax) (hr : r.Nonneg) :
    (stepHour smin smax cap s r).1.release_total ≤
        (stepHour smin smax cap s r).1.inflow_total + (s - smin) ∧
    smin ≤ (stepHour smin smax cap s r).1.storage_end ∧
    (stepHour smin smax cap s r).1.violation_storage_min = false ∧
    smin ≤ (stepHour smin smax cap s r).2 := by
  obtain ⟨h1, h2, h3, -, -, -, -⟩ := hr
  have hA : availableOf smin s r = inflowOf r + (s - smin) := by
    unfold availableOf usableStorage
    rw [max_eq_right (by linarith)]
  have hA0 : 0 ≤ availableOf smin s r := by
    rw [hA]
    unfold inflowOf
    linarith
  have htot : (capStep smin cap s r).2 ≤ inflowOf r + (s - smin) :=
    le_trans (le_trans (applyCap_snd_le_total _ _)
      (allocateReleases_total_le _ _ _ _ _ hA0)) (le_of_eq hA)
  have hpost := post_min_safe smin smax s (inflowOf r) (capStep smin cap s r).2 hmm htot
  exact ⟨htot, hpost.1, hpost.2, hpost.1⟩

theorem scheduleAux_min_safe (smin smax cap : ℚ) (hmm : smin ≤ smax) :
    ∀ (rows : List TimeSeriesRow) (s : ℚ), smin ≤ s →
      (∀ r ∈ rows, r.Nonneg) →
      ∀ i (hi : i < rows.length),
        ((scheduleAux smin smax cap s rows).get ⟨i, by
            rw [scheduleAux_length]
            exact hi⟩).release_total ≤
          ((scheduleAux smin smax cap s rows).get ⟨i, by
            rw [scheduleAux_length]
            exact hi⟩).inflow_total +
            (startStorage smin smax cap s rows i - smin) ∧
        smin ≤ ((scheduleAux smin smax cap s rows).get ⟨i, by
            rw [scheduleAux_length]
            exact hi⟩).storage_end ∧
        ((scheduleAux smin smax cap s rows).get ⟨i, by
            rw [scheduleAux_length]
            exact hi⟩).violation_storage_min = false := by
  intro rows
  induction rows with
  | nil =>
    intro s hs hnn i hi
    exact absurd hi (Nat.not_lt_zero i)
  | cons r rs ih =>
    intro s hs hnn i hi
    cases i with
    | zero =>
      have hst := stepHour_min_safe smin smax cap s r hs hmm
        (hnn r (List.mem_cons_self r rs))
      exact ⟨hst.1, hst.2.1, hst.2.2.1⟩
    | succ j =>
      have hst := stepHour_min_safe smin smax cap s r hs hmm
        (hnn r (List.mem_cons_self r rs))
      exact ih (stepHour smin smax cap s r).2 hst.2.2.2
        (fun x hx => hnn x (List.mem_cons_of_mem r hx)) j (Nat.lt_of_succ_lt_succ hi)

theorem applyCap_d_zero (cap : ℚ) (a : Alloc) (h1 : a.d1_out = 0) (h2 : a.d2_out = 0) :
    (applyCap cap a).1.d1_out = 0 ∧ (applyCap cap a).1.d2_out = 0 := by
  unfold applyCap
  split_ifs <;> simp [h1, h2]

theorem stepHour_commitments_full (smin smax cap s : ℚ) (r : TimeSeriesRow)
    (hav : r.commitment_S4_min + r.commitment_S5_min ≤ availableOf smin s r)
    (hcap : (allocStep smin s r).total ≤ cap) :
    (stepHour smin smax cap s r).1.release_S4_river = r.commitment_S4_min ∧
    (stepHour smin smax cap s r).1.release_S5_downstream = r.commitment_S5_min := by
  have hns := allocateReleases_of_not_short (availableOf smin s r)
    r.commitment_S4_min r.commitment_S5_min r.demand_D1 r.demand_D2
    (not_lt_of_le hav)
  have hc : capStep smin cap s r = (allocStep smin s r, (allocStep smin s r).total) :=
    applyCap_of_le cap _ hcap
  rw [stepHour_release_S4, stepHour_release_S5, hc]
  exact hns

theorem stepHour_cap (smin smax cap s : ℚ) (r : TimeSeriesRow) :
    (stepHour smin smax cap s r).1.release_total ≤ cap ∧
    ((allocStep smin s r).total > cap →
      (stepHour smin smax cap s r).1.release_S4_river =
        (allocStep smin s r).s4_out * (cap / (allocStep smin s r).total) ∧
      (stepHour smin smax cap s r).1.release_S5_downstream =
        (allocStep smin s r).s5_out * (cap / (allocStep smin s r).total) ∧
      (stepHour smin smax cap s r).1.release_D1 =
        (allocStep smin s r).d1_out * (cap / (allocStep smin s r).total) ∧
      (stepHour smin smax cap s r).1.release_D2 =
        (allocStep smin s r).d2_out * (cap / (allocStep smin s r).total) ∧
      (stepHour smin smax cap s r).1.release_total = cap) := by
  refine ⟨applyCap_snd_le_cap cap (allocStep smin s r), fun h => ?_⟩
  have hgt := applyCap_of_gt cap (allocStep smin s r) h
  rw [stepHour_release_S4, stepHour_release_S5, stepHour_release_D1,
    stepHour_release_D2, stepHour_release_total]
  unfold capStep
  rw [hgt]
  exact ⟨rfl, rfl, rfl, rfl, rfl⟩

theorem stepHour_shortage (smin smax cap s : ℚ) (r : TimeSeriesRow)
    (hav : availableOf smin s r < r.commitment_S4_min + r.commitment_S5_min) :
    (stepHour smin smax cap s r).1.release_D1 = 0 ∧
    (stepHour smin smax cap s r).1.release_D2 = 0 ∧
    ((allocStep smin s r).total ≤ cap →
      (stepHour smin smax cap s r).1.release_S4_river =
        r.commitment_S4_min * (availableOf smin s r /
          (r.commitment_S4_min + r.commitment_S5_min + eps)) ∧
      (stepHour smin smax cap s r).1.release_S5_downstream =
        r.commitment_S5_min * (availableOf smin s r /
          (r.commitment_S4_min + r.commitment_S5_min + eps))) := by
  have hall : allocStep smin s r =
      ⟨r.commitment_S4_min * (availableOf smin s r /
          (r.commitment_S4_min + r.commitment_S5_min + eps)),
        r.commitment_S5_min * (availableOf smin s r /
          (r.commitment_S4_min + r.commitment_S5_min + eps)), 0, 0⟩ :=
    allocateReleases_of_short _ _ _ _ _ hav
  have hz := applyCap_d_zero cap (allocStep smin s r) (by rw [hall]) (by rw [hall])
  refine ⟨hz.1, hz.2, fun hcap => ?_⟩
  have hc : capStep smin cap s r = (allocStep smin s r, (allocStep smin s r).total) :=
    applyCap_of_le cap _ hcap
  rw [stepHour_release_S4, stepHour_release_S5, hc]
  rw [hall]
  exact ⟨rfl, rfl⟩

theorem allocateReleases_fair (available s4 s5 d1 d2 : ℚ)
    (h1 : ¬ available < s4 + s5) (h2 : available - (s4 + s5) < d1 + d2) :
    (allocateReleases available s4 s5 d1 d2).d1_out * d2 =
      (allocateReleases available s4 s5 d1 d2).d2_out * d1 := by
  unfold allocateReleases
  rw [if_neg h1]
  dsimp only
  rw [if_neg (not_le.mpr h2)]
  split_ifs with h3
  · simp
  · ring

theorem applyCap_fair (cap : ℚ) (a : Alloc) (d1 d2 : ℚ)
    (h : a.d1_out * d2 = a.d2_out * d1) :
    (applyCap cap a).1.d1_out * d2 = (applyCap cap a).1.d2_out * d1 := by
  unfold applyCap
  split_ifs with hgt
  · show a.d1_out * (cap / a.total) * d2 = a.d2_out * (cap / a.total) * d1
    linear_combination (cap / a.total) * h
  · exact h

theorem stepHour_fairness (smin smax cap s : ℚ) (r : TimeSeriesRow)
    (hav : ¬ availableOf smin s r < r.commitment_S4_min + r.commitment_S5_min)
    (hration : availableOf smin s r -
      (r.commitment_S4_min + r.commitment_S5_min) < r.demand_D1 + r.demand_D2) :
    (stepHour smin smax cap s r).1.release_D1 * r.demand_D2 =
      (stepHour smin smax cap s r).1.release_D2 * r.demand_D1 ∧
    ((stepHour smin smax cap s r).1.release_D2 ≠ 0 → r.demand_D2 ≠ 0 →
      (stepHour smin smax cap s r).1.release_D1 /
          (stepHour smin smax cap s r).1.release_D2 =
        r.demand_D1 / r.demand_D2) := by
  have hcross : (capStep smin cap s r).1.d1_out * r.demand_D2 =
      (capStep smin cap s r).1.d2_out * r.demand_D1 :=
    applyCap_fair cap (allocStep smin s r) r.demand_D1 r.demand_D2
      (allocateReleases_fair _ _ _ _ _ hav hration)
  rw [stepHour_release_D1, stepHour_release_D2]
  refine ⟨hcross, fun hne hd2 => ?_⟩
  rw [div_eq_div_iff hne hd2]
  linarith [hcross]

theorem qdiv_of_ne (a b : ℚ) (h : b ≠ 0) : qdiv a b = some (a / b) := by
  unfold qdiv
  rw [if_neg h]

theorem allocateReleasesChecked_eq (available s4 s5 d1 d2 : ℚ)
    (hc : 0 ≤ s4 + s5) :
    allocateReleasesChecked available s4 s5 d1 d2 =
      some (allocateReleases available s4 s5 d1 d2) := by
  have hD : s4 + s5 + eps ≠ 0 := ne_of_gt (by linarith [eps_pos])
  unfold allocateReleasesChecked allocateReleases
  dsimp only
  split_ifs with h1 h2 h3
  · rw [qdiv_of_ne _ _ hD]
    rfl
  · rfl
  · rfl
  · have hds : d1 + d2 ≠ 0 :=
      ne_of_gt (lt_of_lt_of_le eps_pos (le_of_not_lt h3))
    rw [qdiv_of_ne _ _ hds, qdiv_of_ne _ _ hds]
    rfl

theorem applyCapChecked_eq (cap : ℚ) (a : Alloc) (hcap : 0 ≤ cap) :
    applyCapChecked cap a = some (applyCap cap a) := by
  unfold applyCapChecked applyCap
  split_ifs with h
  · rw [qdiv_of_ne _ _ (ne_of_gt (lt_of_le_of_lt hcap h))]
    rfl
  · rfl

theorem stepHourChecked_eq (smin smax cap s : ℚ) (r : TimeSeriesRow)
    (hcap : 0 ≤ cap) (hc : 0 ≤ r.commitment_S4_min + r.commitment_S5_min) :
    stepHourChecked smin smax cap s r = some (stepHour smin smax cap s r) := by
  unfold stepHourChecked
  rw [allocateReleasesChecked_eq _ _ _ _ _ hc]
  simp only [Option.some_bind]
  rw [applyCapChecked_eq _ _ hcap]
  rfl

theorem scheduleAuxChecked_eq (smin smax cap : ℚ) (hcap : 0 ≤ cap) :
    ∀ (rows : List TimeSeriesRow) (s : ℚ),
      (∀ r ∈ rows, 0 ≤ r.commitment_S4_min + r.commitment_S5_min) →
      scheduleAuxChecked smin smax cap s rows =
        some (scheduleAux smin smax cap s rows) := by
  intro rows
  induction rows with
  | nil =>
    intro s h
    rfl
  | cons r rs ih =>
    intro s h
    show (stepHourChecked smin smax cap s r).bind _ = _
    rw [stepHourChecked_eq smin smax cap s r hcap (h r (List.mem_cons_self r rs))]
    simp only [Option.some_bind]
    rw [ih _ (fun x hx => h x (List.mem_cons_of_mem r hx))]
    rfl

theorem sum_indicator_eq_countP (l : List ScheduleRow) :
    (l.map (fun r => if r.violation_storage_min then (1 : ℤ) else 0)).sum =
      (l.countP ScheduleRow.violation_storage_min : ℤ) := by
  induction l with
  | nil => simp
  | cons r rs ih =>
    by_cases h : r.violation_storage_min
    · simp [List.countP_cons, h, ih]
      ring
    · simp [List.countP_cons, h, ih]

theorem sum_map_add_rat {α : Type} (l : List α) (f g : α → ℚ) :
    (l.map (fun x => f x + g x)).sum = (l.map f).sum + (l.map g).sum := by
  induction l with
  | nil => simp
  | cons a as ih => simp [ih]; ring

/-! ### Claim theorems -/

/-- C4: given `storage_min ≤ storage_max`, every schedule row satisfies
`storage_min ≤ storage_end ≤ storage_max`: the clamp-and-flag policy keeps
the carried storage state inside the bounds at every hour. -/
theorem schedule_storage_bounds (inputs : List TimeSeriesRow)
    (storage_start storage_min storage_max cap : ℚ) (m : ScenarioMultipliers)
    (h : storage_min ≤ storage_max) :
    ∀ row ∈ pseudo_black_box_schedule inputs storage_start storage_min
        storage_max cap m,
      storage_min ≤ row.storage_end ∧ row.storage_end ≤ storage_max :=
  fun row hrow =>
    scheduleAux_bounds storage_min storage_max cap h _ storage_start row hrow

/-- C3: if `storage_start ≥ storage_min`, `storage_min ≤ storage_max` and all
multiplier-adjusted input values are non-negative, then every hour's
`release_total` is at most `inflow_total + (storage - storage_min)`, the
end-of-hour storage never drops below `storage_min`, and
`violation_storage_min` is false in every row: the min-clamp branch is
unreachable under these preconditions. -/
theorem schedule_min_clamp_unreachable (inputs : List TimeSeriesRow)
    (storage_start storage_min storage_max cap : ℚ) (m : ScenarioMultipliers)
    (hs : storage_min ≤ storage_start) (hmm : storage_min ≤ storage_max)
    (hnn : ∀ r ∈ inputs, (applyMultipliers m r).Nonneg)
    (i : ℕ) (hi : i < inputs.length) :
    let sched := pseudo_black_box_schedule inputs storage_start storage_min
      storage_max cap m
    let row := sched.get ⟨i, by
      rw [pseudo_length]
      exact hi⟩
    row.release_total ≤ row.inflow_total +
      (startStorage storage_min storage_max cap storage_start
        (inputs.map (applyMultipliers m)) i - storage_min) ∧
    storage_min ≤ row.storage_end ∧
    row.violation_storage_min = false := by
  intro sched row
  have hlen : i < (inputs.map (applyMultipliers m)).length := by
    rw [List.length_map]
    exact hi
  have hnn2 : ∀ r ∈ inputs.map (applyMultipliers m), r.Nonneg := by
    intro r hr
    rcases List.mem_map.mp hr with ⟨r0, hr0, rfl⟩
    exact hnn r0 hr0
  exact scheduleAux_min_safe storage_min storage_max cap hmm _ storage_start
    hs hnn2 i hlen

/-- C2: for every hour of the schedule whose `violation_storage_min` flag is
false, `storage_end` equals the storage at the start of that hour plus
`inflow_total` minus `release_total` minus `spillage`; for flagged hours the
same identity holds for the pre-clamp value: `storage_end` is the clamped
`storage_min` and the flag marks the shortfall below `storage_min`.  The
start-of-hour storage is `storage_start` for hour 0 and the previous row's
`storage_end` otherwise. -/
theorem schedule_conservation (inputs : List TimeSeriesRow)
    (storage_start storage_min storage_max cap : ℚ) (m : ScenarioMultipliers)
    (i : ℕ) (hi : i < inputs.length) :
    let sched := pseudo_black_box_schedule inputs storage_start storage_min
      storage_max cap m
    let prev := startStorage storage_min storage_max cap storage_start
      (inputs.map (applyMultipliers m)) i
    let row := sched.get ⟨i, by
      rw [pseudo_length]
      exact hi⟩
    (i = 0 → prev = storage_start) ∧
    (∀ j (hj : i = j + 1),
      prev = (sched.get ⟨j, by
        rw [pseudo_length]
        omega⟩).storage_end) ∧
    (row.violation_storage_min = false →
      row.storage_end = prev + row.inflow_total - row.release_total - row.spillage) ∧
    (row.violation_storage_min = true →
      row.storage_end = storage_min ∧
      prev + row.inflow_total - row.release_total - row.spillage < storage_min) := by
  intro sched prev row
  have hlen : i < (inputs.map (applyMultipliers m)).length := by
    rw [List.length_map]
    exact hi
  have hrow : row = (stepHour storage_min storage_max cap prev
      ((inputs.map (applyMultipliers m)).get ⟨i, hlen⟩)).1 :=
    scheduleAux_get storage_min storage_max cap storage_start _ i hlen
  have hc := stepHour_conservation storage_min storage_max cap prev
    ((inputs.map (applyMultipliers m)).get ⟨i, hlen⟩)
  refine ⟨fun h => ?_, fun j hj => ?_, ?_, ?_⟩
  · show startStorage storage_min storage_max cap storage_start
      (inputs.map (applyMultipliers m)) i = storage_start
    rw [h, startStorage_zero]
  · have hjlen : j < (inputs.map (applyMultipliers m)).length := by
      rw [List.length_map]
      omega
    have h1 : startStorage storage_min storage_max cap storage_start
        (inputs.map (applyMultipliers m)) i =
          startStorage storage_min storage_max cap storage_start
            (inputs.map (applyMultipliers m)) (j + 1) := by rw [hj]
    show startStorage storage_min storage_max cap storage_start
        (inputs.map (applyMultipliers m)) i = _
    rw [h1]
    exact startStorage_succ storage_min storage_max cap storage_start _ j hjlen
  · rw [hrow]
    exact hc.1
  · rw [hrow]
    exact hc.2

/-- C1 (amended): for every hour in which available water (inflow_total plus
usable storage above storage_min) is at least `commitment_1 + commitment_2`
and the pre-cap total release does not exceed `max_release_per_hour`, the
schedule releases both commitments in full — `release_S4_river` equals the
multiplier-adjusted `commitment_S4_min` and `release_S5_downstream` equals
the adjusted `commitment_S5_min` — regardless of the demand levels. -/
theorem schedule_commitments_full (inputs : List TimeSeriesRow)
    (storage_start storage_min storage_max cap : ℚ) (m : ScenarioMultipliers)
    (i : ℕ) (hi : i < inputs.length) :
    let rows := inputs.map (applyMultipliers m)
    let prev := startStorage storage_min storage_max cap storage_start rows i
    let r := rows.get ⟨i, by
      rw [List.length_map]
      exact hi⟩
    let row := (pseudo_black_box_schedule inputs storage_start storage_min
      storage_max cap m).get ⟨i, by
        rw [pseudo_length]
        exact hi⟩
    r.commitment_S4_min + r.commitment_S5_min ≤ availableOf storage_min prev r →
    (allocStep storage_min prev r).total ≤ cap →
    row.release_S4_river = r.commitment_S4_min ∧
    row.release_S5_downstream = r.commitment_S5_min := by
  intro rows prev r row hav hcap
  have hlen : i < (inputs.map (applyMultipliers m)).length := by
    rw [List.length_map]
    exact hi
  have hrow : row = (stepHour storage_min storage_max cap prev
      ((inputs.map (applyMultipliers m)).get ⟨i, hlen⟩)).1 :=
    scheduleAux_get storage_min storage_max cap storage_start _ i hlen
  rw [hrow]
  exact stepHour_commitments_full storage_min storage_max cap prev r hav hcap

/-- C1 counterexample: with a binding release cap (`max_release_per_hour` =
50) the hour has available water 100 ≥ 40 + 35 yet `release_S4_river` is
80/3, not the full commitment 40: the claim as stated is false. -/
theorem schedule_commitments_full_cex :
    let r : TimeSeriesRow := ⟨100, 0, 0, 0, 0, 40, 35⟩
    let m : ScenarioMultipliers := ⟨1, 1, 1, 1⟩
    let out := pseudo_black_box_schedule [r] 0 0 10000 50 m
    (applyMultipliers m r).commitment_S4_min +
        (applyMultipliers m r).commitment_S5_min ≤
      availableOf 0 (startStorage 0 10000 50 0 [applyMultipliers m r] 0)
        (applyMultipliers m r) ∧
    out.map ScheduleRow.release_S4_river = [80 / 3] ∧
    ¬ out.map ScheduleRow.release_S4_river =
        [(applyMultipliers m r).commitment_S4_min] := by
  norm_num [pseudo_black_box_schedule, scheduleAux, stepHour, startStorage,
    applyMultipliers, availableOf, inflowOf, usableStorage, allocStep, capStep,
    allocateReleases, applyCap, Alloc.total, eps, max_self]

/-- C5: for every hour `release_total ≤ max_release_per_hour`; whenever the
pre-cap sum of the four allocated releases exceeds the cap, all four outputs
are scaled by the same factor `cap / total_release`, so their mutual ratios
are preserved and `release_total` equals the cap exactly. -/
theorem schedule_cap_respected (inputs : List TimeSeriesRow)
    (storage_start storage_min storage_max cap : ℚ) (m : ScenarioMultipliers)
    (i : ℕ) (hi : i < inputs.length) :
    let rows := inputs.map (applyMultipliers m)
    let prev := startStorage storage_min storage_max cap storage_start rows i
    let r := rows.get ⟨i, by
      rw [List.length_map]
      exact hi⟩
    let row := (pseudo_black_box_schedule inputs storage_start storage_min
      storage_max cap m).get ⟨i, by
        rw [pseudo_length]
        exact hi⟩
    row.release_total ≤ cap ∧
    ((allocStep storage_min prev r).total > cap →
      row.release_S4_river =
        (allocStep storage_min prev r).s4_out *
          (cap / (allocStep storage_min prev r).total) ∧
      row.release_S5_downstream =
        (allocStep storage_min prev r).s5_out *
          (cap / (allocStep storage_min prev r).total) ∧
      row.release_D1 =
        (allocStep storage_min prev r).d1_out *
          (cap / (allocStep storage_min prev r).total) ∧
      row.release_D2 =
        (allocStep storage_min prev r).d2_out *
          (cap / (allocStep storage_min prev r).total) ∧
      row.release_total = cap) := by
  intro rows prev r row
  have hlen : i < (inputs.map (applyMultipliers m)).length := by
    rw [List.length_map]
    exact hi
  have hrow : row = (stepHour storage_min storage_max cap prev
      ((inputs.map (applyMultipliers m)).get ⟨i, hlen⟩)).1 :=
    scheduleAux_get storage_min storage_max cap storage_start _ i hlen
  rw [hrow]
  exact stepHour_cap storage_min storage_max cap prev r

/-- C6 (amended): for every hour with available < commitment_1 + commitment_2
(extreme shortage), both demand releases are zero; and provided the pre-cap
total release does not exceed the cap, each commitment release equals the
multiplier-adjusted commitment scaled by the epsilon-guarded factor
`available / (commitment_1 + commitment_2 + 1e-6)`. -/
theorem schedule_extreme_shortage (inputs : List TimeSeriesRow)
    (storage_start storage_min storage_max cap : ℚ) (m : ScenarioMultipliers)
    (i : ℕ) (hi : i < inputs.length) :
    let rows := inputs.map (applyMultipliers m)
    let prev := startStorage storage_min storage_max cap storage_start rows i
    let r := rows.get ⟨i, by
      rw [List.length_map]
      exact hi⟩
    let row := (pseudo_black_box_schedule inputs storage_start storage_min
      storage_max cap m).get ⟨i, by
        rw [pseudo_length]
        exact hi⟩
    availableOf storage_min prev r < r.commitment_S4_min + r.commitment_S5_min →
    row.release_D1 = 0 ∧ row.release_D2 = 0 ∧
    ((allocStep storage_min prev r).total ≤ cap →
      row.release_S4_river = r.commitment_S4_min * (availableOf storage_min prev r /
        (r.commitment_S4_min + r.commitment_S5_min + eps)) ∧
      row.release_S5_downstream = r.commitment_S5_min * (availableOf storage_min prev r /
        (r.commitment_S4_min + r.commitment_S5_min + eps))) := by
  intro rows prev r row hav
  have hlen : i < (inputs.map (applyMultipliers m)).length := by
    rw [List.length_map]
    exact hi
  have hrow : row = (stepHour storage_min storage_max cap prev
      ((inputs.map (applyMultipliers m)).get ⟨i, hlen⟩)).1 :=
    scheduleAux_get storage_min storage_max cap storage_start _ i hlen
  rw [hrow]
  exact stepHour_shortage storage_min storage_max cap prev r hav

/-- C6 counterexample: one hour with inflow 30, commitments 40 and 35
(shortage, cap not binding).  The code scales by the epsilon-guarded factor
`30 / (75 + 1e-6)`, so `release_S4_river` is 1200000000/75000001, not the
claimed `40 * (30 / 75) = 16`: the claim's un-guarded factor is false. -/
theorem schedule_extreme_shortage_cex :
    let r : TimeSeriesRow := ⟨30, 0, 0, 0, 0, 40, 35⟩
    let m : ScenarioMultipliers := ⟨1, 1, 1, 1⟩
    let out := pseudo_black_box_schedule [r] 0 0 10000 1000 m
    availableOf 0 (startStorage 0 10000 1000 0 [applyMultipliers m r] 0)
        (applyMultipliers m r) <
      (applyMultipliers m r).commitment_S4_min +
        (applyMultipliers m r).commitment_S5_min ∧
    out.map ScheduleRow.release_S4_river = [1200000000 / 75000001] ∧
    ¬ out.map ScheduleRow.release_S4_river =
        [(applyMultipliers m r).commitment_S4_min *
          (availableOf 0 (startStorage 0 10000 1000 0 [applyMultipliers m r] 0)
              (applyMultipliers m r) /
            ((applyMultipliers m r).commitment_S4_min +
              (applyMultipliers m r).commitment_S5_min))] := by
  norm_num [pseudo_black_box_schedule, scheduleAux, stepHour, startStorage,
    applyMultipliers, availableOf, inflowOf, usableStorage, allocStep, capStep,
    allocateReleases, applyCap, Alloc.total, eps, max_self]

/-- C7 (amended): for every hour in which commitments are fully covered by
available water (`available ≥ commitment_1 + commitment_2`) but the remainder
is less than `demand_1 + demand_2`, with both demands nonzero, the demand
releases preserve each demand's share in cross-multiplied form:
`release_D1 * demand_2 = release_D2 * demand_1`; and whenever `release_D2`
is nonzero, `release_D1 / release_D2 = demand_1 / demand_2`.  (As stated,
with the ratio required unconditionally, the claim fails when the rationed
remainder is zero or the epsilon guard zeroes both releases.) -/
theorem schedule_proportional_fairness (inputs : List TimeSeriesRow)
    (storage_start storage_min storage_max cap : ℚ) (m : ScenarioMultipliers)
    (i : ℕ) (hi : i < inputs.length) :
    let rows := inputs.map (applyMultipliers m)
    let prev := startStorage storage_min storage_max cap storage_start rows i
    let r := rows.get ⟨i, by
      rw [List.length_map]
      exact hi⟩
    let row := (pseudo_black_box_schedule inputs storage_start storage_min
      storage_max cap m).get ⟨i, by
        rw [pseudo_length]
        exact hi⟩
    ¬ availableOf storage_min prev r < r.commitment_S4_min + r.commitment_S5_min →
    availableOf storage_min prev r -
        (r.commitment_S4_min + r.commitment_S5_min) < r.demand_D1 + r.demand_D2 →
    r.demand_D1 ≠ 0 → r.demand_D2 ≠ 0 →
    row.release_D1 * r.demand_D2 = row.release_D2 * r.demand_D1 ∧
    (row.release_D2 ≠ 0 →
      row.release_D1 / row.release_D2 = r.demand_D1 / r.demand_D2) := by
  intro rows prev r row hav hration hd1 hd2
  have hlen : i < (inputs.map (applyMultipliers m)).length := by
    rw [List.length_map]
    exact hi
  have hrow : row = (stepHour storage_min storage_max cap prev
      ((inputs.map (applyMultipliers m)).get ⟨i, hlen⟩)).1 :=
    scheduleAux_get storage_min storage_max cap storage_start _ i hlen
  rw [hrow]
  have hf := stepHour_fairness storage_min storage_max cap prev r hav hration
  exact ⟨hf.1, fun hne => hf.2 hne hd2⟩

/-- C7 counterexample: inflow 75 exactly covers the commitments 40 + 35, so
the rationed remainder is 0 and both demand releases are 0 although the
demands are 10 and 30: `release_D1 / release_D2 = 0 ≠ 1/3 = demand_1 /
demand_2`, refuting the unconditional ratio claim. -/
theorem schedule_proportional_fairness_cex :
    let r : TimeSeriesRow := ⟨75, 0, 0, 10, 30, 40, 35⟩
    let m : ScenarioMultipliers := ⟨1, 1, 1, 1⟩
    let out := pseudo_black_box_schedule [r] 100 100 10000 1000 m
    let prev := startStorage 100 10000 1000 100 [applyMultipliers m r] 0
    ¬ availableOf 100 prev (applyMultipliers m r) <
        (applyMultipliers m r).commitment_S4_min +
          (applyMultipliers m r).commitment_S5_min ∧
    availableOf 100 prev (applyMultipliers m r) -
        ((applyMultipliers m r).commitment_S4_min +
          (applyMultipliers m r).commitment_S5_min) <
      (applyMultipliers m r).demand_D1 + (applyMultipliers m r).demand_D2 ∧
    (applyMultipliers m r).demand_D1 ≠ 0 ∧
    (applyMultipliers m r).demand_D2 ≠ 0 ∧
    out.map ScheduleRow.release_S4_river =
      [(applyMultipliers m r).commitment_S4_min] ∧
    out.map (fun w => w.release_D1 / w.release_D2) = [0] ∧
    ¬ out.map (fun w => w.release_D1 / w.release_D2) =
        [(applyMultipliers m r).demand_D1 / (applyMultipliers m r).demand_D2] := by
  norm_num [pseudo_black_box_schedule, scheduleAux, stepHour, startStorage,
    applyMultipliers, availableOf, inflowOf, usableStorage, allocStep, capStep,
    allocateReleases, applyCap, Alloc.total, eps, max_self]

/-- C8 (amended): for every input with a non-negative release cap and, for
every hour, a non-negative multiplier-adjusted commitment sum, the engine
performs no division by zero: the checked embedding (Python float-division
semantics) returns the schedule rather than raising.  As stated — for every
numeric input, including a negative cap — the claim is false; see the
counterexample. -/
theorem schedule_no_raise (inputs : List TimeSeriesRow)
    (storage_start storage_min storage_max cap : ℚ) (m : ScenarioMultipliers)
    (hcap : 0 ≤ cap)
    (hc : ∀ r ∈ inputs, 0 ≤ (applyMultipliers m r).commitment_S4_min +
      (applyMultipliers m r).commitment_S5_min) :
    pseudo_black_box_schedule_checked inputs storage_start storage_min
        storage_max cap m =
      some (pseudo_black_box_schedule inputs storage_start storage_min
        storage_max cap m) := by
  unfold pseudo_black_box_schedule_checked pseudo_black_box_schedule
  apply scheduleAuxChecked_eq storage_min storage_max cap hcap
  intro r hr
  rcases List.mem_map.mp hr with ⟨r0, hr0, rfl⟩
  exact hc r0 hr0

/-- C8 counterexample: with every time-series value zero and
`max_release_per_hour = -1`, the cap branch computes `cap / total_release`
with `total_release = 0`, so Python float division raises
`ZeroDivisionError`: the engine does not return a schedule for every
numeric input. -/
theorem schedule_no_raise_cex :
    pseudo_black_box_schedule_checked [⟨0, 0, 0, 0, 0, 0, 0⟩] 0 0 0 (-1)
      ⟨1, 1, 1, 1⟩ = none := by
  norm_num [pseudo_black_box_schedule_checked, scheduleAuxChecked,
    stepHourChecked, allocateReleasesChecked, applyCapChecked, qdiv,
    applyMultipliers, availableOf, inflowOf, usableStorage, Alloc.total, eps,
    max_self]

/-- C9: `kpis` is a pure function of (inputs, schedule) returning Demand met
% = 100 × (sum over all hours of release_D1 + release_D2) / (sum of
demand_D1 + demand_D2 + 1e-6); Commitments met % computed analogously over
the commitment releases and commitment columns; Total spillage = the sum of
per-hour spillage; Storage-min violations = the count of hours whose
violation flag is set. -/
theorem kpis_spec (inputs : List TimeSeriesRow) (schedule : List ScheduleRow) :
    kpis inputs schedule =
      { demand_met_pct :=
          100 * (schedule.map (fun w => w.release_D1 + w.release_D2)).sum /
            ((inputs.map (fun r => r.demand_D1 + r.demand_D2)).sum + eps)
        commitments_met_pct :=
          100 * (schedule.map (fun w =>
              w.release_S4_river + w.release_S5_downstream)).sum /
            ((inputs.map (fun r =>
              r.commitment_S4_min + r.commitment_S5_min)).sum + eps)
        total_spillage := (schedule.map ScheduleRow.spillage).sum
        storage_min_violations :=
          (schedule.countP ScheduleRow.violation_storage_min : ℤ) } := by
  unfold kpis
  dsimp only
  rw [sum_indicator_eq_countP, sum_map_add_rat, sum_map_add_rat,
    sum_map_add_rat, sum_map_add_rat]

/-- C10: for every horizon ≥ 1 and every draw of the five raw signal streams
(the abstraction of the five per-seed random signals), `generate_inputs`
returns exactly `horizon` hourly rows, every value of every column is
non-negative, and the two commitment columns are constant across the whole
horizon (40 and 35 in every row). -/
theorem generate_inputs_spec (horizon : ℕ) (h : 1 ≤ horizon)
    (s1 r1 r2 d1 d2 : ℕ → ℚ) :
    (generate_inputs horizon s1 r1 r2 d1 d2).length = horizon ∧
    ∀ r ∈ generate_inputs horizon s1 r1 r2 d1 d2,
      r.Nonneg ∧ r.commitment_S4_min = 40 ∧ r.commitment_S5_min = 35 := by
  constructor
  · simp [generate_inputs]
  · intro r hr
    rcases List.mem_map.mp hr with ⟨i, -, rfl⟩
    exact ⟨⟨le_max_right _ _, le_max_right _ _, le_max_right _ _,
      mul_nonneg (le_max_right _ _) (by norm_num),
      mul_nonneg (le_max_right _ _) (by norm_num),
      by norm_num, by norm_num⟩, rfl, rfl⟩

/-! ### Witnesses: each hypothesised claim theorem applied at a concrete
input -/

/-- Witness for `schedule_storage_bounds` at a concrete one-hour input. -/
theorem schedule_storage_bounds_witness :
    ((100 : ℚ) ≤ 1000) ∧
    ∀ row ∈ pseudo_black_box_schedule [⟨200, 0, 0, 10, 20, 40, 35⟩] 500 100 1000
        600 ⟨1, 1, 1, 1⟩,
      (100 : ℚ) ≤ row.storage_end ∧ row.storage_end ≤ 1000 :=
  ⟨by norm_num,
    schedule_storage_bounds [⟨200, 0, 0, 10, 20, 40, 35⟩] 500 100 1000 600
      ⟨1, 1, 1, 1⟩ (by norm_num)⟩

/-- Witness for `schedule_no_raise` at a concrete one-hour input. -/
theorem schedule_no_raise_witness :
    ((0 : ℚ) ≤ 600) ∧
    (∀ r ∈ [(⟨200, 0, 0, 10, 20, 40, 35⟩ : TimeSeriesRow)],
      0 ≤ (applyMultipliers ⟨1, 1, 1, 1⟩ r).commitment_S4_min +
        (applyMultipliers ⟨1, 1, 1, 1⟩ r).commitment_S5_min) ∧
    pseudo_black_box_schedule_checked [⟨200, 0, 0, 10, 20, 40, 35⟩] 500 100 1000
        600 ⟨1, 1, 1, 1⟩ =
      some (pseudo_black_box_schedule [⟨200, 0, 0, 10, 20, 40, 35⟩] 500 100 1000
        600 ⟨1, 1, 1, 1⟩) :=
  ⟨by norm_num, by norm_num [applyMultipliers],
    schedule_no_raise _ _ _ _ _ _ (by norm_num) (by norm_num [applyMultipliers])⟩

/-- Witness for `generate_inputs_spec` at horizon 2 with constant streams. -/
theorem generate_inputs_spec_witness :
    (1 ≤ 2) ∧
    ((generate_inputs 2 (fun _ => 7) (fun _ => 8) (fun _ => 9) (fun _ => 3)
        (fun _ => 4)).length = 2 ∧
      ∀ r ∈ generate_inputs 2 (fun _ => 7) (fun _ => 8) (fun _ => 9)
          (fun _ => 3) (fun _ => 4),
        r.Nonneg ∧ r.commitment_S4_min = 40 ∧ r.commitment_S5_min = 35) :=
  ⟨by norm_num, generate_inputs_spec 2 (by norm_num) _ _ _ _ _⟩

/-- Witness for `schedule_conservation` at a concrete one-hour input. -/
theorem schedule_conservation_witness :
    (0 < [(⟨200, 0, 0, 10, 20, 40, 35⟩ : TimeSeriesRow)].length) ∧
    (let sched := pseudo_black_box_schedule [⟨200, 0, 0, 10, 20, 40, 35⟩] 500
      100 1000 600 ⟨1, 1, 1, 1⟩
    let prev := startStorage 100 1000 600 500
      ([⟨200, 0, 0, 10, 20, 40, 35⟩].map (applyMultipliers ⟨1, 1, 1, 1⟩)) 0
    let row := sched.get ⟨0, by
      rw [pseudo_length]
      simp⟩
    (0 = 0 → prev = 500) ∧
    (∀ j (hj : 0 = j + 1),
      prev = (sched.get ⟨j, by
        rw [pseudo_length]
        omega⟩).storage_end) ∧
    (row.violation_storage_min = false →
      row.storage_end = prev + row.inflow_total - row.release_total - row.spillage) ∧
    (row.violation_storage_min = true →
      row.storage_end = 100 ∧
      prev + row.inflow_total - row.release_total - row.spillage < 100)) :=
  ⟨by simp,
    schedule_conservation [⟨200, 0, 0, 10, 20, 40, 35⟩] 500 100 1000 600
      ⟨1, 1, 1, 1⟩ 0 (by simp)⟩

/-- Witness for `schedule_min_clamp_unreachable` at a concrete one-hour
input. -/
theorem schedule_min_clamp_unreachable_witness :
    ((100 : ℚ) ≤ 500) ∧ ((100 : ℚ) ≤ 1000) ∧
    (∀ r ∈ [(⟨200, 0, 0, 10, 20, 40, 35⟩ : TimeSeriesRow)],
      (applyMultipliers ⟨1, 1, 1, 1⟩ r).Nonneg) ∧
    (0 < [(⟨200, 0, 0, 10, 20, 40, 35⟩ : TimeSeriesRow)].length) ∧
    (let sched := pseudo_black_box_schedule [⟨200, 0, 0, 10, 20, 40, 35⟩] 500
      100 1000 600 ⟨1, 1, 1, 1⟩
    let row := sched.get ⟨0, by
      rw [pseudo_length]
      simp⟩
    row.release_total ≤ row.inflow_total +
      (startStorage 100 1000 600 500
        ([⟨200, 0, 0, 10, 20, 40, 35⟩].map (applyMultipliers ⟨1, 1, 1, 1⟩)) 0
        - 100) ∧
    (100 : ℚ) ≤ row.storage_end ∧
    row.violation_storage_min = false) :=
  ⟨by norm_num, by norm_num,
    by norm_num [applyMultipliers, TimeSeriesRow.Nonneg], by simp,
    schedule_min_clamp_unreachable [⟨200, 0, 0, 10, 20, 40, 35⟩] 500 100 1000
      600 ⟨1, 1, 1, 1⟩ (by norm_num) (by norm_num)
      (by norm_num [applyMultipliers, TimeSeriesRow.Nonneg]) 0 (by simp)⟩

/-- Witness for `schedule_commitments_full` at a concrete one-hour input. -/
theorem schedule_commitments_full_witness :
    (0 < [(⟨200, 0, 0, 10, 20, 40, 35⟩ : TimeSeriesRow)].length) ∧
    (let rows := [(⟨200, 0, 0, 10, 20, 40, 35⟩ : TimeSeriesRow)].map
      (applyMultipliers ⟨1, 1, 1, 1⟩)
    let prev := startStorage 100 1000 600 500 rows 0
    let r := rows.get ⟨0, Nat.zero_lt_one⟩
    let row := (pseudo_black_box_schedule [⟨200, 0, 0, 10, 20, 40, 35⟩] 500 100
      1000 600 ⟨1, 1, 1, 1⟩).get ⟨0, by
        rw [pseudo_length]
        simp⟩
    r.commitment_S4_min + r.commitment_S5_min ≤ availableOf 100 prev r ∧
    (allocStep 100 prev r).total ≤ 600 ∧
    (row.release_S4_river = r.commitment_S4_min ∧
      row.release_S5_downstream = r.commitment_S5_min)) :=
  ⟨by simp,
    by norm_num [applyMultipliers, availableOf, inflowOf, usableStorage,
      startStorage, List.get_cons_zero, max_self],
    by norm_num [applyMultipliers, availableOf, inflowOf, usableStorage,
      startStorage, List.get_cons_zero, max_self, allocStep, allocateReleases,
      Alloc.total, eps],
    schedule_commitments_full [⟨200, 0, 0, 10, 20, 40, 35⟩] 500 100 1000 600
      ⟨1, 1, 1, 1⟩ 0 (by simp)
      (by norm_num [applyMultipliers, availableOf, inflowOf, usableStorage,
        startStorage, List.get_cons_zero, max_self])
      (by norm_num [applyMultipliers, availableOf, inflowOf, usableStorage,
        startStorage, List.get_cons_zero, max_self, allocStep,
        allocateReleases, Alloc.total, eps])⟩

/-- Witness for `schedule_cap_respected` at a concrete one-hour input. -/
theorem schedule_cap_respected_witness :
    (0 < [(⟨200, 0, 0, 10, 20, 40, 35⟩ : TimeSeriesRow)].length) ∧
    (let rows := [(⟨200, 0, 0, 10, 20, 40, 35⟩ : TimeSeriesRow)].map
      (applyMultipliers ⟨1, 1, 1, 1⟩)
    let prev := startStorage 100 1000 600 500 rows 0
    let r := rows.get ⟨0, Nat.zero_lt_one⟩
    let row := (pseudo_black_box_schedule [⟨200, 0, 0, 10, 20, 40, 35⟩] 500 100
      1000 600 ⟨1, 1, 1, 1⟩).get ⟨0, by
        rw [pseudo_length]
        simp⟩
    row.release_total ≤ 600 ∧
    ((allocStep 100 prev r).total > 600 →
      row.release_S4_river =
        (allocStep 100 prev r).s4_out * (600 / (allocStep 100 prev r).total) ∧
      row.release_S5_downstream =
        (allocStep 100 prev r).s5_out * (600 / (allocStep 100 prev r).total) ∧
      row.release_D1 =
        (allocStep 100 prev r).d1_out * (600 / (allocStep 100 prev r).total) ∧
      row.release_D2 =
        (allocStep 100 prev r).d2_out * (600 / (allocStep 100 prev r).total) ∧
      row.release_total = 600)) :=
  ⟨by simp,
    schedule_cap_respected [⟨200, 0, 0, 10, 20, 40, 35⟩] 500 100 1000 600
      ⟨1, 1, 1, 1⟩ 0 (by simp)⟩

/-- Witness for `schedule_extreme_shortage` at a concrete one-hour shortage
input. -/
theorem schedule_extreme_shortage_witness :
    (0 < [(⟨30, 0, 0, 5, 5, 40, 35⟩ : TimeSeriesRow)].length) ∧
    (let rows := [(⟨30, 0, 0, 5, 5, 40, 35⟩ : TimeSeriesRow)].map
      (applyMultipliers ⟨1, 1, 1, 1⟩)
    let prev := startStorage 0 10000 1000 0 rows 0
    let r := rows.get ⟨0, Nat.zero_lt_one⟩
    let row := (pseudo_black_box_schedule [⟨30, 0, 0, 5, 5, 40, 35⟩] 0 0 10000
      1000 ⟨1, 1, 1, 1⟩).get ⟨0, by
        rw [pseudo_length]
        simp⟩
    availableOf 0 prev r < r.commitment_S4_min + r.commitment_S5_min ∧
    (row.release_D1 = 0 ∧ row.release_D2 = 0 ∧
      ((allocStep 0 prev r).total ≤ 1000 →
        row.release_S4_river = r.commitment_S4_min * (availableOf 0 prev r /
          (r.commitment_S4_min + r.commitment_S5_min + eps)) ∧
        row.release_S5_downstream = r.commitment_S5_min * (availableOf 0 prev r /
          (r.commitment_S4_min + r.commitment_S5_min + eps))))) :=
  ⟨by simp,
    by norm_num [applyMultipliers, availableOf, inflowOf, usableStorage,
      startStorage, List.get_cons_zero, max_self],
    schedule_extreme_shortage [⟨30, 0, 0, 5, 5, 40, 35⟩] 0 0 10000 1000
      ⟨1, 1, 1, 1⟩ 0 (by simp)
      (by norm_num [applyMultipliers, availableOf, inflowOf, usableStorage,
        startStorage, List.get_cons_zero, max_self])⟩

/-- Witness for `schedule_proportional_fairness` at a concrete one-hour
rationed input. -/
theorem schedule_proportional_fairness_witness :
    (0 < [(⟨100, 0, 0, 40, 40, 40, 35⟩ : TimeSeriesRow)].length) ∧
    (let rows := [(⟨100, 0, 0, 40, 40, 40, 35⟩ : TimeSeriesRow)].map
      (applyMultipliers ⟨1, 1, 1, 1⟩)
    let prev := startStorage 0 10000 1000 0 rows 0
    let r := rows.get ⟨0, Nat.zero_lt_one⟩
    let row := (pseudo_black_box_schedule [⟨100, 0, 0, 40, 40, 40, 35⟩] 0 0
      10000 1000 ⟨1, 1, 1, 1⟩).get ⟨0, by
        rw [pseudo_length]
        simp⟩
    ¬ availableOf 0 prev r < r.commitment_S4_min + r.commitment_S5_min ∧
    availableOf 0 prev r - (r.commitment_S4_min + r.commitment_S5_min) <
      r.demand_D1 + r.demand_D2 ∧
    r.demand_D1 ≠ 0 ∧ r.demand_D2 ≠ 0 ∧
    (row.release_D1 * r.demand_D2 = row.release_D2 * r.demand_D1 ∧
      (row.release_D2 ≠ 0 →
        row.release_D1 / row.release_D2 = r.demand_D1 / r.demand_D2))) :=
  ⟨by simp,
    by norm_num [applyMultipliers, availableOf, inflowOf, usableStorage,
      startStorage, List.get_cons_zero, max_self],
    by norm_num [applyMultipliers, availableOf, inflowOf, usableStorage,
      startStorage, List.get_cons_zero, max_self],
    by norm_num [applyMultipliers, List.get_cons_zero],
    by norm_num [applyMultipliers, List.get_cons_zero],
    schedule_proportional_fairness [⟨100, 0, 0, 40, 40, 40, 35⟩] 0 0 10000 1000
      ⟨1, 1, 1, 1⟩ 0 (by simp)
      (by norm_num [applyMultipliers, availableOf, inflowOf, usableStorage,
        startStorage, List.get_cons_zero, max_self])
      (by norm_num [applyMultipliers, availableOf, inflowOf, usableStorage,
        startStorage, List.get_cons_zero, max_self])
      (by norm_num [applyMultipliers, List.get_cons_zero])
      (by norm_num [applyMultipliers, List.get_cons_zero])⟩

end ReservoirDSS
